import Mathlib

/-
Verification of the feature-flag gated rollout / redirect layer of the
taxhub001 repository, shallowly embedded from:
  src/lib/admin/featureFlags.ts          (rollout decision engine)
  src/hooks/useAdminWorkBenchFeature     (UI feature switch hook)
  src/app/api/admin/entities/clients/... (deprecated client endpoints)
Machine integers follow the JavaScript semantics of the source: the
rolling hash wraps to a 32-bit signed integer, parseInt may yield NaN
(modelled as Option Int with none = NaN), and string truthiness means
the string is non-empty.
-/

namespace TaxHub

/-- Runtime environment as seen by featureFlags.ts: an optional
process-wide env map (typeof process check) and an optional injected
client-side window.__ENV__ map (typeof window check). A key absent
from a map is modelled as none. -/
structure RuntimeEnv where
  hasProcess : Bool
  hasWindow : Bool
  processEnv : String → Option String
  windowEnv : String → Option String

/-- JavaScript truthiness of an optional string value: defined and
non-empty. Used for the checks of the form process.env?.[key]. -/
def jsTruthyStr : Option String → Bool
  | some s => s ≠ ""
  | none => false

/-- The server-side lookup path: the value of process.env[key] when
process exists and the value is truthy (JS: a non-empty string). -/
def envProcessValue (env : RuntimeEnv) (key : String) : Option String :=
  if env.hasProcess then
    match env.processEnv key with
    | some v => if v = "" then none else some v
    | none => none
  else none

/-- The client-side lookup path: window.__ENV__[key] when window
exists; the source only checks the value against undefined, so an
empty string IS returned here (unlike the process path). -/
def envWindowValue (env : RuntimeEnv) (key : String) : Option String :=
  if env.hasWindow then env.windowEnv key else none

/-- Embedding of getEnvironmentVariable(key, defaultValue): process
env first (truthy values only), then window env (any defined value),
then the caller-supplied default. -/
def getEnvironmentVariable (env : RuntimeEnv) (key defaultValue : String) : String :=
  match envProcessValue env key with
  | some v => v
  | none =>
    match envWindowValue env key with
    | some v => v
    | none => defaultValue

/-- Embedding of isAdminWorkBenchEnabled(): the global flag is on only
when the NEXT_PUBLIC_ADMIN_WORKBENCH_ENABLED value resolves to the
exact string "true"; defaults to false. -/
def isAdminWorkBenchEnabled (env : RuntimeEnv) : Bool :=
  match envProcessValue env ("NEXT_PUBLIC_ADMIN_WORKBENCH_ENABLED") with
  | some v => v == "true"
  | none =>
    match envWindowValue env ("NEXT_PUBLIC_ADMIN_WORKBENCH_ENABLED") with
    | some v => v == "true"
    | none => false

/-- The targetUsers configuration value of featureFlags.ts, which in
the source is the union type string | string[]. -/
inductive TargetUsers where
  | str (s : String)
  | roles (l : List String)
deriving DecidableEq, Repr

/-- Splitting a character list at commas, as JS split with a comma
separator does: the empty input gives one empty field, adjacent
separators give empty fields. The accumulator holds the current field
reversed. -/
def splitCommaAux : List Char → List Char → List String
  | [], acc => [String.mk acc.reverse]
  | c :: rest, acc =>
    if c = ',' then String.mk acc.reverse :: splitCommaAux rest []
    else splitCommaAux rest (c :: acc)

/-- Embedding of the JS call value.split of the source with separator
comma. -/
def jsSplitComma (s : String) : List String :=
  splitCommaAux s.toList []

/-- Embedding of JS String.prototype.trim: drop whitespace from both
ends. -/
def jsTrim (s : String) : String :=
  String.mk (((s.toList.dropWhile Char.isWhitespace).reverse.dropWhile
    Char.isWhitespace).reverse)

/-- Embedding of JS String.prototype.toUpperCase, on the ASCII role
names the source handles. -/
def jsToUpper (s : String) : String :=
  String.mk (s.toList.map Char.toUpper)

/-- Embedding of parseTargetUsers: keeps the strings "all" and "beta"
unchanged, maps "admins" to the role list ADMIN, splits a
comma-separated value into trimmed upper-cased roles, upper-cases a
single role, and falls back to "all". -/
def parseTargetUsers (targetUsersStr : String) : TargetUsers :=
  if targetUsersStr = "all" ∨ targetUsersStr = "beta" then
    .str targetUsersStr
  else if targetUsersStr = "admins" then
    .roles ["ADMIN"]
  else if targetUsersStr.toList.contains (',') then
    .roles ((jsSplitComma targetUsersStr).map (fun role => jsToUpper (jsTrim role)))
  else if targetUsersStr ≠ "" ∧ targetUsersStr ≠ "all" then
    .roles [jsToUpper targetUsersStr]
  else
    .str ("all")

/-- Embedding of getBetaTesterList: comma-separated ids, trimmed, with
empty entries dropped; an unset or empty variable yields the empty
list (JS falsiness of the empty string). -/
def getBetaTesterList (env : RuntimeEnv) : List String :=
  let betaListEnv := getEnvironmentVariable env ("NEXT_PUBLIC_ADMIN_WORKBENCH_BETA_TESTERS") ("")
  if betaListEnv = "" then []
  else ((jsSplitComma betaListEnv).map jsTrim).filter (fun id => id ≠ "")

/-- Embedding of JavaScript parseInt(s, 10): skip leading whitespace,
read an optional sign and a maximal run of decimal digits; none models
NaN (no digits found). The float-precision loss of parseInt on huge
digit runs is not modelled; no claim touches such inputs. -/
def jsParseInt (s : String) : Option Int :=
  let cs := s.toList.dropWhile Char.isWhitespace
  let digitsVal : List Char → Option Nat := fun l =>
    let ds := l.takeWhile Char.isDigit
    if ds.isEmpty then none
    else some (ds.foldl (fun acc c => acc * 10 + (c.toNat - 48)) 0)
  match cs with
  | '-' :: rest => (digitsVal rest).map (fun n => -(n : Int))
  | '+' :: rest => (digitsVal rest).map (fun n => (n : Int))
  | _ => (digitsVal cs).map (fun n => (n : Int))

/-- Embedding of the configuration object returned by
getAdminWorkBenchFeatureFlagConfig; rolloutPercentage is Option Int
because parseInt can produce NaN. -/
structure AdminWorkBenchConfig where
  enabled : Bool
  rolloutPercentage : Option Int
  targetUsers : TargetUsers
  betaTesters : List String
  description : String
deriving DecidableEq, Repr

/-- Embedding of getAdminWorkBenchFeatureFlagConfig(): assembles the
config from the environment, with defaults "100" for the rollout
percentage and "all" for the target users. -/
def getAdminWorkBenchFeatureFlagConfig (env : RuntimeEnv) : AdminWorkBenchConfig :=
  let rolloutPercentage :=
    getEnvironmentVariable env ("NEXT_PUBLIC_ADMIN_WORKBENCH_ROLLOUT_PERCENTAGE") ("100")
  let targetUsersEnv :=
    getEnvironmentVariable env ("NEXT_PUBLIC_ADMIN_WORKBENCH_TARGET_USERS") ("all")
  let betaTesters := getBetaTesterList env
  { enabled := isAdminWorkBenchEnabled env
    rolloutPercentage := jsParseInt rolloutPercentage
    targetUsers := parseTargetUsers targetUsersEnv
    betaTesters := betaTesters
    description := "New AdminWorkBench UI for user management dashboard" }

/-- Wrap an integer to the signed 32-bit range, as the JS bitwise
operators do. -/
def toInt32 (n : Int) : Int :=
  ((n + 2147483648) % 4294967296) - 2147483648

/-- One step of the rolling hash of hashUserId:
hash = ((hash << 5) - hash) + char, then hash = hash & hash. The shift
wraps its result to 32 bits and the self-AND wraps the sum back to a
signed 32-bit integer, exactly as in JS. -/
def hashStep (hash : Int) (char : Int) : Int :=
  toInt32 (toInt32 (hash * 32) - hash + char)

/-- Embedding of hashUserId: fold the rolling hash over the character
codes of userId, then take Math.abs(hash) % 100. Characters are
modelled by their code points, which agrees with charCodeAt on the
basic multilingual plane. -/
def hashUserId (userId : String) : Nat :=
  ((userId.toList.foldl (fun h c => hashStep h (Char.toNat c)) 0).natAbs) % 100

/-- The target roles array built inside isAdminWorkBenchEnabledForUser:
Array.isArray(config.targetUsers) ? config.targetUsers : [config.targetUsers]. -/
def targetRolesArray : TargetUsers → List String
  | .str s => [s]
  | .roles l => l

/-- The role-based targeting check of isAdminWorkBenchEnabledForUser:
deny when targetUsers is not the string "all", a truthy role was
supplied, and the role is not in the target array. -/
def roleDenied (config : AdminWorkBenchConfig) (userRole : Option String) : Bool :=
  config.targetUsers ≠ .str ("all") ∧ jsTruthyStr userRole ∧
    ¬ (targetRolesArray config.targetUsers).contains (userRole.getD (""))

/-- The gradual-rollout check of isAdminWorkBenchEnabledForUser: when
rolloutPercentage < 100 (false for NaN), deny when
hashUserId(userId) % 100 is at least the percentage threshold. The JS
threshold expression (p / 100) * 100 is modelled as the exact value p;
the two coincide at every input any claim touches. -/
def rolloutDenied (config : AdminWorkBenchConfig) (userId : String) : Bool :=
  match config.rolloutPercentage with
  | none => false
  | some p => p < 100 ∧ ((hashUserId userId % 100 : Nat) : Int) ≥ p

/-- The part of isAdminWorkBenchEnabledForUser after the global gate,
evaluated against an already-loaded config: role targeting, then
gradual rollout, then the beta-tester list, then default true. -/
def enabledForUserWithConfig (config : AdminWorkBenchConfig) (userId : String)
    (userRole : Option String) : Bool :=
  if roleDenied config userRole then false
  else if rolloutDenied config userId then false
  else if 0 < config.betaTesters.length then config.betaTesters.contains userId
  else true

/-- Embedding of isAdminWorkBenchEnabledForUser(userId, userRole):
global gate first, then the per-user checks against the freshly loaded
configuration. -/
def isAdminWorkBenchEnabledForUser (env : RuntimeEnv) (userId : String)
    (userRole : Option String) : Bool :=
  if ¬ isAdminWorkBenchEnabled env then false
  else enabledForUserWithConfig (getAdminWorkBenchFeatureFlagConfig env) userId userRole

/-- Build a runtime environment with a server-side process env given
by an association list and no client-side window env; used to
instantiate concrete scenarios. -/
def envWith (vars : List (String × String)) : RuntimeEnv :=
  { hasProcess := true
    hasWindow := false
    processEnv := fun k => (vars.find? (fun p => p.1 = k)).map Prod.snd
    windowEnv := fun _ => none }

/-- The session user object of useAdminWorkBenchFeature: optional id
and role, as delivered by the authentication provider. -/
structure SessionUser where
  id : Option String
  role : Option String

/-- A session as the hook sees it: an optional user object. -/
structure Session where
  user : Option SessionUser

/-- The optional chain session?.user?.id. -/
def sessionUserId (session : Option Session) : Option String :=
  match session with
  | some s =>
    match s.user with
    | some u => u.id
    | none => none
  | none => none

/-- The optional chain session?.user?.role. -/
def sessionUserRole (session : Option Session) : Option String :=
  match session with
  | some s =>
    match s.user with
    | some u => u.role
    | none => none
  | none => none

/-- The value computed by the useAdminWorkBenchFeature hook. -/
structure UseAdminWorkBenchResult where
  globalEnabled : Bool
  userEnabled : Bool
  enabled : Bool
  config : AdminWorkBenchConfig

/-- Embedding of useAdminWorkBenchFeature(): userEnabled holds only
for a session with a truthy user id (JS truthiness: the ternary
session?.user?.id ? ... : false), and enabled is the conjunction of
the global and the per-user verdicts. -/
def useAdminWorkBenchFeature (env : RuntimeEnv) (session : Option Session) :
    UseAdminWorkBenchResult :=
  let globalEnabled := isAdminWorkBenchEnabled env
  let userEnabled :=
    match sessionUserId session with
    | some uid =>
      if uid ≠ "" then isAdminWorkBenchEnabledForUser env uid (sessionUserRole session)
      else false
    | none => false
  { globalEnabled := globalEnabled
    userEnabled := userEnabled
    enabled := globalEnabled && userEnabled
    config := getAdminWorkBenchFeatureFlagConfig env }

/-- An HTTP response of the deprecated client endpoints, reduced to
the parts the claims talk about: status code and response headers.
Bodies are elided. -/
structure ApiResponse where
  status : Nat
  headers : List (String × String)
deriving DecidableEq, Repr

/-- Embedding of addDeprecationHeaders of the clients routes: sets the
four deprecation headers on a response. The Sunset value, computed in
the source as now + 90 days, is passed in as a parameter since it
depends on the clock; link and warn differ between the two route
files. -/
def addDeprecationHeaders (response : ApiResponse) (sunset link warn : String) :
    ApiResponse :=
  { response with
      headers := response.headers ++
        [("Deprecation", "true"), ("Sunset", sunset), ("Link", link), ("X-API-Warn", warn)] }

/-- Outcome of an awaited collaborator call inside a try block: the
value, or a thrown error caught by the catch branch. -/
inductive TryResult (α : Type) where
  | ok (a : α)
  | thrown
deriving DecidableEq, Repr

/-- Link header value of the clients list/create route. -/
def clientsListLink : String := "</api/admin/users?role=CLIENT>; rel=\"successor\""

/-- Warning header value of the clients list/create route. -/
def clientsListWarn : String :=
  "This endpoint is deprecated. Please use /api/admin/users with role=CLIENT filter instead."

/-- Link header value of the client detail route. -/
def clientDetailLink : String := "</api/admin/users>; rel=\"successor\""

/-- Warning header value of the client detail route. -/
def clientDetailWarn : String :=
  "This endpoint is deprecated. Please use /api/admin/users instead."

/-- Collaborator outcomes feeding the GET handler of
/api/admin/entities/clients: the permission check result, the tenant
id of the request context, and the outcome of the findMany query
(number of rows, or thrown). -/
structure ClientsListRequest where
  hasPermissionUsersView : Bool
  tenantId : Option String
  findManyResult : TryResult Nat

/-- Embedding of the GET handler of /api/admin/entities/clients:
401 without permission, 400 without tenant, 200 with the client list;
every branch wraps its response in addDeprecationHeaders EXCEPT the
catch branch, which returns the 500 response bare. -/
def clientsGET (req : ClientsListRequest) (sunset : String) : ApiResponse :=
  if ¬ req.hasPermissionUsersView then
    addDeprecationHeaders { status := 401, headers := [] } sunset clientsListLink clientsListWarn
  else if req.tenantId = none then
    addDeprecationHeaders { status := 400, headers := [] } sunset clientsListLink clientsListWarn
  else
    match req.findManyResult with
    | .ok _ =>
      addDeprecationHeaders { status := 200, headers := [] } sunset clientsListLink clientsListWarn
    | .thrown => { status := 500, headers := [] }

/-- Collaborator outcomes feeding the GET handler of
/api/admin/entities/clients/[id]: permission check, tenant id, and the
findFirst query outcome (some row, no row, or thrown). -/
structure ClientDetailRequest where
  hasPermissionUsersView : Bool
  tenantId : Option String
  findFirstResult : TryResult (Option Unit)

/-- Embedding of the GET handler of /api/admin/entities/clients/[id]:
401, 400, 404 and 200 branches all wrap in addDeprecationHeaders; the
catch branch returns the 500 response bare. -/
def clientDetailGET (req : ClientDetailRequest) (sunset : String) : ApiResponse :=
  if ¬ req.hasPermissionUsersView then
    addDeprecationHeaders { status := 401, headers := [] } sunset clientDetailLink clientDetailWarn
  else if req.tenantId = none then
    addDeprecationHeaders { status := 400, headers := [] } sunset clientDetailLink clientDetailWarn
  else
    match req.findFirstResult with
    | .ok (some _) =>
      addDeprecationHeaders { status := 200, headers := [] } sunset clientDetailLink clientDetailWarn
    | .ok none =>
      addDeprecationHeaders { status := 404, headers := [] } sunset clientDetailLink clientDetailWarn
    | .thrown => { status := 500, headers := [] }

/-- True when the response carries all four deprecation headers. -/
def hasAllDeprecationHeaders (r : ApiResponse) : Bool :=
  ["Deprecation", "Sunset", "Link", "X-API-Warn"].all
    (fun n => r.headers.any (fun h => h.1 = n))

/-- A redirect rule of the legacy route redirector: canonical
destination path, query parameters, and HTTP status. -/
structure RedirectRule where
  destinationPath : String
  queryParams : List (String × String)
  status : Nat
deriving DecidableEq, Repr

/-- True for an HTTP redirect status code (3xx). -/
def isRedirectStatus (n : Nat) : Bool :=
  300 ≤ n ∧ n < 400

/-- Modelled from the spec: the Legacy Route Redirector. The page or
middleware source that implements the redirects from the legacy admin
paths to /admin/users is not part of the repository snapshot; only the
e2e test admin-unified-redirects.spec.ts exercises it. The mapping
below follows the spec (sections 4.3 and 6): permissions and roles go
to the rbac tab, clients and team to the dashboard tab with a role
filter, all with an HTTP redirect status. -/
def legacyAdminRedirect (sourcePath : String) : Option RedirectRule :=
  if sourcePath = "/admin/permissions" then
    some { destinationPath := "/admin/users", queryParams := [("tab", "rbac")], status := 307 }
  else if sourcePath = "/admin/roles" then
    some { destinationPath := "/admin/users", queryParams := [("tab", "rbac")], status := 307 }
  else if sourcePath = "/admin/clients" then
    some { destinationPath := "/admin/users",
           queryParams := [("tab", "dashboard"), ("role", "CLIENT")], status := 307 }
  else if sourcePath = "/admin/team" then
    some { destinationPath := "/admin/users",
           queryParams := [("tab", "dashboard"), ("role", "TEAM_MEMBER")], status := 307 }
  else none

/-- A legacy path redirects as expected: some redirect is produced,
its status is 3xx, and it targets the given destination with the given
query parameters. -/
def redirectsTo (sourcePath destinationPath : String)
    (queryParams : List (String × String)) : Prop :=
  ∃ r, legacyAdminRedirect sourcePath = some r ∧ isRedirectStatus r.status = true ∧
    r.destinationPath = destinationPath ∧ r.queryParams = queryParams

/-- A truthy process env hit means the raw process env holds exactly
that value. -/
theorem envProcessValue_eq_some {env : RuntimeEnv} {key v : String}
    (h : envProcessValue env key = some v) : env.processEnv key = some v := by
  unfold envProcessValue at h
  split at h
  · cases hp : env.processEnv key with
    | some w =>
      rw [hp] at h
      split at h
      · simp_all
      · simp_all
    | none => rw [hp] at h; simp_all
  · simp_all

/-- A window env hit means the raw window env holds exactly that
value. -/
theorem envWindowValue_eq_some {env : RuntimeEnv} {key v : String}
    (h : envWindowValue env key = some v) : env.windowEnv key = some v := by
  unfold envWindowValue at h
  split at h
  · exact h
  · simp_all

/-- Claim C5: hashUserId is deterministic and always lands in the
range 0 to 99, so the rollout gate of isAdminWorkBenchEnabledForUser
answers the same on repeated calls with the same userId and
configuration. -/
theorem c5_hash_deterministic_and_bounded (userId u : String) (env : RuntimeEnv)
    (r : Option String) :
    hashUserId userId = hashUserId userId ∧ hashUserId userId < 100 ∧
    isAdminWorkBenchEnabledForUser env u r = isAdminWorkBenchEnabledForUser env u r := by
  refine ⟨rfl, ?_, rfl⟩
  unfold hashUserId
  exact Nat.mod_lt _ (by norm_num)

/-- Claim C7: every GET on a legacy admin path is answered with a 3xx
redirect to /admin/users carrying the fixed query mapping: permissions
and roles go to tab rbac; clients to tab dashboard with role CLIENT;
team to tab dashboard with role TEAM_MEMBER. -/
theorem c7_legacy_admin_redirects :
    redirectsTo ("/admin/permissions") ("/admin/users") [("tab", "rbac")] ∧
    redirectsTo ("/admin/roles") ("/admin/users") [("tab", "rbac")] ∧
    redirectsTo ("/admin/clients") ("/admin/users") [("tab", "dashboard"), ("role", "CLIENT")] ∧
    redirectsTo ("/admin/team") ("/admin/users")
      [("tab", "dashboard"), ("role", "TEAM_MEMBER")] := by
  refine ⟨⟨⟨"/admin/users", [("tab", "rbac")], 307⟩, ?_, ?_, ?_, ?_⟩,
    ⟨⟨"/admin/users", [("tab", "rbac")], 307⟩, ?_, ?_, ?_, ?_⟩,
    ⟨⟨"/admin/users", [("tab", "dashboard"), ("role", "CLIENT")], 307⟩, ?_, ?_, ?_, ?_⟩,
    ⟨⟨"/admin/users", [("tab", "dashboard"), ("role", "TEAM_MEMBER")], 307⟩,
      ?_, ?_, ?_, ?_⟩⟩ <;> decide

/-- Claim C2: the code drops the four deprecation headers on the 500
catch branch of the two GET handlers (while their other branches, and
the other methods, attach them); the claim that every response of the
deprecated client endpoints carries them is contradicted there. -/
theorem c2_get_catch_lacks_deprecation_headers :
    (clientsGET ⟨true, some ("tenant-1"), .thrown⟩ ("sunset-date")).status = 500 ∧
    hasAllDeprecationHeaders
      (clientsGET ⟨true, some ("tenant-1"), .thrown⟩ ("sunset-date")) = false ∧
    (clientDetailGET ⟨true, some ("tenant-1"), .thrown⟩ ("sunset-date")).status = 500 ∧
    hasAllDeprecationHeaders
      (clientDetailGET ⟨true, some ("tenant-1"), .thrown⟩ ("sunset-date")) = false ∧
    hasAllDeprecationHeaders
      (clientsGET ⟨true, some ("tenant-1"), .ok 3⟩ ("sunset-date")) = true ∧
    hasAllDeprecationHeaders
      (clientDetailGET ⟨true, some ("tenant-1"), .ok none⟩ ("sunset-date")) = true ∧
    hasAllDeprecationHeaders
      (clientsGET ⟨false, some ("tenant-1"), .ok 3⟩ ("sunset-date")) = true := by
  decide

/-- Claim C10: the hook value satisfies enabled = globalEnabled AND
userEnabled, and a session without a user id makes userEnabled, and
hence enabled, false whatever the environment holds. -/
theorem c10_hook_enabled_conjunction (env : RuntimeEnv) (session : Option Session) :
    (useAdminWorkBenchFeature env session).enabled =
      ((useAdminWorkBenchFeature env session).globalEnabled &&
        (useAdminWorkBenchFeature env session).userEnabled) ∧
    (sessionUserId session = none →
      (useAdminWorkBenchFeature env session).userEnabled = false ∧
      (useAdminWorkBenchFeature env session).enabled = false) := by
  refine ⟨rfl, fun h => ?_⟩
  constructor
  · simp [useAdminWorkBenchFeature, h]
  · simp [useAdminWorkBenchFeature, h]

/-- Witness for claim C10, at an environment with the feature fully
on and an absent session. -/
theorem c10_hook_enabled_conjunction_witness :
    (useAdminWorkBenchFeature
        (envWith [("NEXT_PUBLIC_ADMIN_WORKBENCH_ENABLED", "true")]) none).enabled =
      ((useAdminWorkBenchFeature
          (envWith [("NEXT_PUBLIC_ADMIN_WORKBENCH_ENABLED", "true")]) none).globalEnabled &&
        (useAdminWorkBenchFeature
          (envWith [("NEXT_PUBLIC_ADMIN_WORKBENCH_ENABLED", "true")]) none).userEnabled) ∧
    ((useAdminWorkBenchFeature
        (envWith [("NEXT_PUBLIC_ADMIN_WORKBENCH_ENABLED", "true")]) none).userEnabled = false ∧
      (useAdminWorkBenchFeature
        (envWith [("NEXT_PUBLIC_ADMIN_WORKBENCH_ENABLED", "true")]) none).enabled = false) :=
  ⟨(c10_hook_enabled_conjunction
      (envWith [("NEXT_PUBLIC_ADMIN_WORKBENCH_ENABLED", "true")]) none).1,
    (c10_hook_enabled_conjunction
      (envWith [("NEXT_PUBLIC_ADMIN_WORKBENCH_ENABLED", "true")]) none).2 rfl⟩

/-- Claim C4: when the global enable variable resolves to anything
but the exact string true, isAdminWorkBenchEnabled is false and
isAdminWorkBenchEnabledForUser denies every user, whatever the role,
percentage or beta list. -/
theorem c4_global_flag_off_denies (env : RuntimeEnv) (userId : String) (userRole : Option String)
    (hs : env.processEnv ("NEXT_PUBLIC_ADMIN_WORKBENCH_ENABLED") ≠ some ("true"))
    (hw : env.windowEnv ("NEXT_PUBLIC_ADMIN_WORKBENCH_ENABLED") ≠ some ("true")) :
    isAdminWorkBenchEnabled env = false ∧
    isAdminWorkBenchEnabledForUser env userId userRole = false := by
  have hg : isAdminWorkBenchEnabled env = false := by
    unfold isAdminWorkBenchEnabled
    cases hpv : envProcessValue env ("NEXT_PUBLIC_ADMIN_WORKBENCH_ENABLED") with
    | some v =>
      have hv : v ≠ "true" := fun e => hs (by rw [← e]; exact envProcessValue_eq_some hpv)
      simpa using hv
    | none =>
      cases hwv : envWindowValue env ("NEXT_PUBLIC_ADMIN_WORKBENCH_ENABLED") with
      | some v =>
        have hv : v ≠ "true" := fun e => hw (by rw [← e]; exact envWindowValue_eq_some hwv)
        simpa using hv
      | none => rfl
  refine ⟨hg, ?_⟩
  unfold isAdminWorkBenchEnabledForUser
  simp [hg]

/-- Witness for claim C4, at an environment that sets the flag to an
uppercase TRUE, which the comparison rejects. -/
theorem c4_global_flag_off_denies_witness :
    isAdminWorkBenchEnabled (envWith [("NEXT_PUBLIC_ADMIN_WORKBENCH_ENABLED", "TRUE")]) = false ∧
    isAdminWorkBenchEnabledForUser (envWith [("NEXT_PUBLIC_ADMIN_WORKBENCH_ENABLED", "TRUE")])
      ("user-1") (some ("ADMIN")) = false :=
  c4_global_flag_off_denies (envWith [("NEXT_PUBLIC_ADMIN_WORKBENCH_ENABLED", "TRUE")])
    ("user-1") (some ("ADMIN")) (by decide) (by decide)

/-- Claim C6: with the feature globally enabled, a rollout of 100 and
the target role list holding only ADMIN, a caller with role CLIENT is
denied. -/
theorem c6_client_role_denied (env : RuntimeEnv) (userId : String)
    (hg : isAdminWorkBenchEnabled env = true)
    (hp : (getAdminWorkBenchFeatureFlagConfig env).rolloutPercentage = some 100)
    (ht : (getAdminWorkBenchFeatureFlagConfig env).targetUsers = .roles ["ADMIN"]) :
    isAdminWorkBenchEnabledForUser env userId (some ("CLIENT")) = false := by
  have hrd : roleDenied (getAdminWorkBenchFeatureFlagConfig env) (some ("CLIENT")) = true := by
    unfold roleDenied
    rw [ht]
    decide
  unfold isAdminWorkBenchEnabledForUser enabledForUserWithConfig
  simp [hg, hrd]

/-- Witness for claim C6, at an environment with the flag on, target
users admins and rollout 100. -/
theorem c6_client_role_denied_witness :
    isAdminWorkBenchEnabledForUser
      (envWith [("NEXT_PUBLIC_ADMIN_WORKBENCH_ENABLED", "true"),
        ("NEXT_PUBLIC_ADMIN_WORKBENCH_TARGET_USERS", "admins"),
        ("NEXT_PUBLIC_ADMIN_WORKBENCH_ROLLOUT_PERCENTAGE", "100")])
      ("user-1") (some ("CLIENT")) = false :=
  c6_client_role_denied
    (envWith [("NEXT_PUBLIC_ADMIN_WORKBENCH_ENABLED", "true"),
      ("NEXT_PUBLIC_ADMIN_WORKBENCH_TARGET_USERS", "admins"),
      ("NEXT_PUBLIC_ADMIN_WORKBENCH_ROLLOUT_PERCENTAGE", "100")])
    ("user-1") (by decide) (by decide) (by decide)

/-- Claim C3: with the feature globally enabled and no beta-tester
override, a rollout percentage of 0 denies every user, and a rollout
percentage of 100 enables every user whose role passes the
target-users filter. -/
theorem c3_rollout_zero_denies_hundred_enables (envA envB : RuntimeEnv)
    (userId : String) (userRole : Option String)
    (hgA : isAdminWorkBenchEnabled envA = true)
    (hbA : (getAdminWorkBenchFeatureFlagConfig envA).betaTesters = [])
    (hpA : (getAdminWorkBenchFeatureFlagConfig envA).rolloutPercentage = some 0)
    (hgB : isAdminWorkBenchEnabled envB = true)
    (hbB : (getAdminWorkBenchFeatureFlagConfig envB).betaTesters = [])
    (hpB : (getAdminWorkBenchFeatureFlagConfig envB).rolloutPercentage = some 100)
    (hrB : roleDenied (getAdminWorkBenchFeatureFlagConfig envB) userRole = false) :
    isAdminWorkBenchEnabledForUser envA userId userRole = false ∧
    isAdminWorkBenchEnabledForUser envB userId userRole = true := by
  constructor
  · have hra : rolloutDenied (getAdminWorkBenchFeatureFlagConfig envA) userId = true := by
      unfold rolloutDenied
      rw [hpA]
      simp
      exact Int.emod_nonneg _ (by norm_num)
    by_cases hrole : roleDenied (getAdminWorkBenchFeatureFlagConfig envA) userRole
    · unfold isAdminWorkBenchEnabledForUser enabledForUserWithConfig
      simp [hgA, hrole]
    · unfold isAdminWorkBenchEnabledForUser enabledForUserWithConfig
      simp [hgA, hrole, hra]
  · have hrb : rolloutDenied (getAdminWorkBenchFeatureFlagConfig envB) userId = false := by
      unfold rolloutDenied
      rw [hpB]
      simp
    unfold isAdminWorkBenchEnabledForUser enabledForUserWithConfig
    simp [hgB, hrB, hrb, hbB]

/-- Witness for claim C3, at environments with the flag on and rollout
0 respectively 100, with no beta testers configured. -/
theorem c3_rollout_zero_denies_hundred_enables_witness :
    isAdminWorkBenchEnabledForUser
      (envWith [("NEXT_PUBLIC_ADMIN_WORKBENCH_ENABLED", "true"),
        ("NEXT_PUBLIC_ADMIN_WORKBENCH_ROLLOUT_PERCENTAGE", "0")])
      ("user-1") (some ("ADMIN")) = false ∧
    isAdminWorkBenchEnabledForUser
      (envWith [("NEXT_PUBLIC_ADMIN_WORKBENCH_ENABLED", "true"),
        ("NEXT_PUBLIC_ADMIN_WORKBENCH_ROLLOUT_PERCENTAGE", "100")])
      ("user-1") (some ("ADMIN")) = true :=
  c3_rollout_zero_denies_hundred_enables
    (envWith [("NEXT_PUBLIC_ADMIN_WORKBENCH_ENABLED", "true"),
      ("NEXT_PUBLIC_ADMIN_WORKBENCH_ROLLOUT_PERCENTAGE", "0")])
    (envWith [("NEXT_PUBLIC_ADMIN_WORKBENCH_ENABLED", "true"),
      ("NEXT_PUBLIC_ADMIN_WORKBENCH_ROLLOUT_PERCENTAGE", "100")])
    ("user-1") (some ("ADMIN")) (by decide) (by decide) (by decide)
    (by decide) (by decide) (by decide) (by decide)

/-- Changing only the rollout percentage of a config changes none of
the other checks of enabledForUserWithConfig. -/
theorem roleDenied_update_rollout (cfg : AdminWorkBenchConfig) (p : Option Int)
    (userRole : Option String) :
    roleDenied { cfg with rolloutPercentage := p } userRole = roleDenied cfg userRole := rfl

/-- Claim C8: a non-numeric rollout-percentage value parses to NaN,
the NaN < 100 comparison is false, so the percentage gate is skipped
and the decision equals the global gate followed by the per-user
checks with the percentage forced to 100. -/
theorem c8_nan_rollout_behaves_as_hundred (env : RuntimeEnv) (userId : String)
    (userRole : Option String)
    (h : jsParseInt (getEnvironmentVariable env
      ("NEXT_PUBLIC_ADMIN_WORKBENCH_ROLLOUT_PERCENTAGE") ("100")) = none) :
    (getAdminWorkBenchFeatureFlagConfig env).rolloutPercentage = none ∧
    isAdminWorkBenchEnabledForUser env userId userRole =
      (isAdminWorkBenchEnabled env &&
        enabledForUserWithConfig
          { getAdminWorkBenchFeatureFlagConfig env with rolloutPercentage := some 100 }
          userId userRole) := by
  have hcfg : (getAdminWorkBenchFeatureFlagConfig env).rolloutPercentage = none := h
  refine ⟨hcfg, ?_⟩
  have h1 : rolloutDenied (getAdminWorkBenchFeatureFlagConfig env) userId = false := by
    unfold rolloutDenied
    rw [hcfg]
  have h2 : rolloutDenied
      { getAdminWorkBenchFeatureFlagConfig env with rolloutPercentage := some 100 }
      userId = false := by
    unfold rolloutDenied
    simp
  by_cases hg : isAdminWorkBenchEnabled env
  · unfold isAdminWorkBenchEnabledForUser enabledForUserWithConfig
    simp [hg, h1, h2, roleDenied_update_rollout]
  · unfold isAdminWorkBenchEnabledForUser
    simp [hg]

/-- Witness for claim C8, at an environment whose rollout percentage
is the non-numeric string abc. -/
theorem c8_nan_rollout_behaves_as_hundred_witness :
    (getAdminWorkBenchFeatureFlagConfig
      (envWith [("NEXT_PUBLIC_ADMIN_WORKBENCH_ENABLED", "true"),
        ("NEXT_PUBLIC_ADMIN_WORKBENCH_ROLLOUT_PERCENTAGE", "abc")])).rolloutPercentage = none ∧
    isAdminWorkBenchEnabledForUser
      (envWith [("NEXT_PUBLIC_ADMIN_WORKBENCH_ENABLED", "true"),
        ("NEXT_PUBLIC_ADMIN_WORKBENCH_ROLLOUT_PERCENTAGE", "abc")]) ("user-1") none =
      (isAdminWorkBenchEnabled
        (envWith [("NEXT_PUBLIC_ADMIN_WORKBENCH_ENABLED", "true"),
          ("NEXT_PUBLIC_ADMIN_WORKBENCH_ROLLOUT_PERCENTAGE", "abc")]) &&
        enabledForUserWithConfig
          { getAdminWorkBenchFeatureFlagConfig
              (envWith [("NEXT_PUBLIC_ADMIN_WORKBENCH_ENABLED", "true"),
                ("NEXT_PUBLIC_ADMIN_WORKBENCH_ROLLOUT_PERCENTAGE", "abc")]) with
            rolloutPercentage := some 100 }
          ("user-1") none) :=
  c8_nan_rollout_behaves_as_hundred
    (envWith [("NEXT_PUBLIC_ADMIN_WORKBENCH_ENABLED", "true"),
      ("NEXT_PUBLIC_ADMIN_WORKBENCH_ROLLOUT_PERCENTAGE", "abc")])
    ("user-1") none (by decide)

/-- Claim C9 counterexample: with target users set to beta, a beta
tester who supplies the empty-string role (a role other than beta) is
NOT denied: the role filter is skipped because the empty string is
falsy, and the beta list then grants access. -/
theorem c9_counterexample_empty_role_not_denied :
    (getAdminWorkBenchFeatureFlagConfig
      (envWith [("NEXT_PUBLIC_ADMIN_WORKBENCH_ENABLED", "true"),
        ("NEXT_PUBLIC_ADMIN_WORKBENCH_TARGET_USERS", "beta"),
        ("NEXT_PUBLIC_ADMIN_WORKBENCH_BETA_TESTERS", "u1")])).targetUsers = .str ("beta") ∧
    ("" : String) ≠ "beta" ∧
    isAdminWorkBenchEnabledForUser
      (envWith [("NEXT_PUBLIC_ADMIN_WORKBENCH_ENABLED", "true"),
        ("NEXT_PUBLIC_ADMIN_WORKBENCH_TARGET_USERS", "beta"),
        ("NEXT_PUBLIC_ADMIN_WORKBENCH_BETA_TESTERS", "u1")]) ("u1") (some ("")) = true := by
  decide

/-- Claim C9 as amended: parseTargetUsers leaves the string beta
unchanged, and with the configured target users equal to that string
every caller supplying a NON-EMPTY role other than the literal beta is
denied, beta-list members included; an empty-string role skips the
role filter by JS falsiness. -/
theorem c9_beta_target_denies_other_roles (env : RuntimeEnv) (userId r : String)
    (ht : (getAdminWorkBenchFeatureFlagConfig env).targetUsers = .str ("beta"))
    (hr : r ≠ "") (hrb : r ≠ "beta") :
    parseTargetUsers ("beta") = .str ("beta") ∧
    isAdminWorkBenchEnabledForUser env userId (some r) = false := by
  refine ⟨by decide, ?_⟩
  have hrd : roleDenied (getAdminWorkBenchFeatureFlagConfig env) (some r) = true := by
    unfold roleDenied
    rw [ht]
    simp [jsTruthyStr, targetRolesArray, hr, List.elem_eq_mem]
    exact fun e => hrb (by simpa using e)
  by_cases hg : isAdminWorkBenchEnabled env
  · unfold isAdminWorkBenchEnabledForUser enabledForUserWithConfig
    simp [hg, hrd]
  · unfold isAdminWorkBenchEnabledForUser
    simp [hg]

/-- Witness for the amended claim C9, at an environment with target
users beta and a caller of role ADMIN who is on the beta list. -/
theorem c9_beta_target_denies_other_roles_witness :
    parseTargetUsers ("beta") = .str ("beta") ∧
    isAdminWorkBenchEnabledForUser
      (envWith [("NEXT_PUBLIC_ADMIN_WORKBENCH_ENABLED", "true"),
        ("NEXT_PUBLIC_ADMIN_WORKBENCH_TARGET_USERS", "beta"),
        ("NEXT_PUBLIC_ADMIN_WORKBENCH_BETA_TESTERS", "u1")]) ("u1") (some ("ADMIN")) = false :=
  c9_beta_target_denies_other_roles
    (envWith [("NEXT_PUBLIC_ADMIN_WORKBENCH_ENABLED", "true"),
      ("NEXT_PUBLIC_ADMIN_WORKBENCH_TARGET_USERS", "beta"),
      ("NEXT_PUBLIC_ADMIN_WORKBENCH_BETA_TESTERS", "u1")])
    ("u1") ("ADMIN") (by decide) (by decide) (by decide)

/-- Claim C1 counterexample: with the feature globally enabled, the
role filter passing, a non-empty beta list containing u1 and a rollout
percentage of 0 (so the hash gate condition hash mod 100 at least the
percentage holds for every user), the beta member u1 is denied: the
percentage gate runs BEFORE the beta-list check and returns early. -/
theorem c1_counterexample_beta_member_denied_by_gate :
    isAdminWorkBenchEnabled
      (envWith [("NEXT_PUBLIC_ADMIN_WORKBENCH_ENABLED", "true"),
        ("NEXT_PUBLIC_ADMIN_WORKBENCH_ROLLOUT_PERCENTAGE", "0"),
        ("NEXT_PUBLIC_ADMIN_WORKBENCH_BETA_TESTERS", "u1")]) = true ∧
    roleDenied (getAdminWorkBenchFeatureFlagConfig
      (envWith [("NEXT_PUBLIC_ADMIN_WORKBENCH_ENABLED", "true"),
        ("NEXT_PUBLIC_ADMIN_WORKBENCH_ROLLOUT_PERCENTAGE", "0"),
        ("NEXT_PUBLIC_ADMIN_WORKBENCH_BETA_TESTERS", "u1")])) (some ("ADMIN")) = false ∧
    (getAdminWorkBenchFeatureFlagConfig
      (envWith [("NEXT_PUBLIC_ADMIN_WORKBENCH_ENABLED", "true"),
        ("NEXT_PUBLIC_ADMIN_WORKBENCH_ROLLOUT_PERCENTAGE", "0"),
        ("NEXT_PUBLIC_ADMIN_WORKBENCH_BETA_TESTERS", "u1")])).betaTesters = ["u1"] ∧
    (getAdminWorkBenchFeatureFlagConfig
      (envWith [("NEXT_PUBLIC_ADMIN_WORKBENCH_ENABLED", "true"),
        ("NEXT_PUBLIC_ADMIN_WORKBENCH_ROLLOUT_PERCENTAGE", "0"),
        ("NEXT_PUBLIC_ADMIN_WORKBENCH_BETA_TESTERS", "u1")])).rolloutPercentage = some 0 ∧
    hashUserId ("u1") % 100 ≥ 0 ∧
    isAdminWorkBenchEnabledForUser
      (envWith [("NEXT_PUBLIC_ADMIN_WORKBENCH_ENABLED", "true"),
        ("NEXT_PUBLIC_ADMIN_WORKBENCH_ROLLOUT_PERCENTAGE", "0"),
        ("NEXT_PUBLIC_ADMIN_WORKBENCH_BETA_TESTERS", "u1")]) ("u1") (some ("ADMIN")) = false := by
  decide

/-- Claim C1 as amended: with the feature globally enabled, the role
filter passing and a non-empty beta list, the verdict equals rollout
gate passed AND membership in the beta list: a non-member is denied
even when the gate passes, and a beta member is denied whenever the
gate rejects them. -/
theorem c1_beta_list_decides_after_rollout_gate (env : RuntimeEnv) (userId : String)
    (userRole : Option String)
    (hg : isAdminWorkBenchEnabled env = true)
    (hr : roleDenied (getAdminWorkBenchFeatureFlagConfig env) userRole = false)
    (hb : (getAdminWorkBenchFeatureFlagConfig env).betaTesters ≠ []) :
    isAdminWorkBenchEnabledForUser env userId userRole =
      (!(rolloutDenied (getAdminWorkBenchFeatureFlagConfig env) userId) &&
        (getAdminWorkBenchFeatureFlagConfig env).betaTesters.contains userId) := by
  have hlen : 0 < (getAdminWorkBenchFeatureFlagConfig env).betaTesters.length :=
    List.length_pos.mpr hb
  by_cases hrd : rolloutDenied (getAdminWorkBenchFeatureFlagConfig env) userId
  · unfold isAdminWorkBenchEnabledForUser enabledForUserWithConfig
    simp [hg, hr, hrd]
  · unfold isAdminWorkBenchEnabledForUser enabledForUserWithConfig
    simp [hg, hr, hrd, hlen]

/-- Witness for the amended claim C1, at an environment with the flag
on, rollout 100 and beta testers u1 and u2, evaluated for the beta
member u1. -/
theorem c1_beta_list_decides_after_rollout_gate_witness :
    isAdminWorkBenchEnabledForUser
      (envWith [("NEXT_PUBLIC_ADMIN_WORKBENCH_ENABLED", "true"),
        ("NEXT_PUBLIC_ADMIN_WORKBENCH_ROLLOUT_PERCENTAGE", "100"),
        ("NEXT_PUBLIC_ADMIN_WORKBENCH_BETA_TESTERS", "u1,u2")]) ("u1") (some ("ADMIN")) =
      (!(rolloutDenied (getAdminWorkBenchFeatureFlagConfig
          (envWith [("NEXT_PUBLIC_ADMIN_WORKBENCH_ENABLED", "true"),
            ("NEXT_PUBLIC_ADMIN_WORKBENCH_ROLLOUT_PERCENTAGE", "100"),
            ("NEXT_PUBLIC_ADMIN_WORKBENCH_BETA_TESTERS", "u1,u2")])) ("u1")) &&
        (getAdminWorkBenchFeatureFlagConfig
          (envWith [("NEXT_PUBLIC_ADMIN_WORKBENCH_ENABLED", "true"),
            ("NEXT_PUBLIC_ADMIN_WORKBENCH_ROLLOUT_PERCENTAGE", "100"),
            ("NEXT_PUBLIC_ADMIN_WORKBENCH_BETA_TESTERS", "u1,u2")])).betaTesters.contains
          ("u1")) :=
  c1_beta_list_decides_after_rollout_gate
    (envWith [("NEXT_PUBLIC_ADMIN_WORKBENCH_ENABLED", "true"),
      ("NEXT_PUBLIC_ADMIN_WORKBENCH_ROLLOUT_PERCENTAGE", "100"),
      ("NEXT_PUBLIC_ADMIN_WORKBENCH_BETA_TESTERS", "u1,u2")])
    ("u1") (some ("ADMIN")) (by decide) (by decide) (by decide)

end TaxHub
